import Mathlib

/-!
Verification development for the OT device-debug MCP server
(`src/index.ts`, class `OTDeviceDebugThinkingServer`).

The shallow embedding below translates the server's pure data and control
logic into Lean. External collaborators (the Playwright browser, the HTTP
HEAD probe) are modelled as oracle inputs (`World`): each phase analyzer
receives the observation the collaborator would have produced, including a
`thrown` case for a collaborator exception caught by the phase's try/catch.
JavaScript strings are Lean `String`s; `String.includes` is substring
containment; `toLowerCase` is char-wise ASCII lowering; the WHATWG `new URL`
builtin is modelled by `urlParse` (scheme strip, authority cut at `/?#`,
port strip at `:`, failure on empty or forbidden-character hosts), with
parse failure standing for the thrown `TypeError`.
-/

namespace OTDebug

/-- A JSON-ish JavaScript value, as received by the tool-call handler.
`obj` stands for any non-primitive value (object/array). -/
inductive JSVal where
  | str (s : String)
  | num (n : Int)
  | bool (b : Bool)
  | null
  | undef
  | obj
  deriving DecidableEq, Repr

/-- JavaScript truthiness of a `JSVal` (`0`, `""`, `null`, `undefined`,
`false` are falsy; objects are truthy). -/
def jsTruthy : JSVal → Bool
  | .str s => s ≠ ""
  | .num n => n ≠ 0
  | .bool b => b
  | .null => false
  | .undef => false
  | .obj => true

def jsIsString : JSVal → Bool
  | .str _ => true
  | _ => false

def jsIsNumber : JSVal → Bool
  | .num _ => true
  | _ => false

def jsIsBoolean : JSVal → Bool
  | .bool _ => true
  | _ => false

def jsAsString : JSVal → String
  | .str s => s
  | _ => ""

def jsAsNumber : JSVal → Int
  | .num n => n
  | _ => 0

def jsAsBool : JSVal → Bool
  | .bool b => b
  | _ => false

/-- The string a `JSVal` coerces to when used as an object key. -/
def jsKeyString : JSVal → String
  | .str s => s
  | .num n => toString n
  | .bool b => toString b
  | .null => "null"
  | .undef => "undefined"
  | .obj => "[object Object]"

/-- Char-wise ASCII lowering, modelling `String.prototype.toLowerCase`
on the ASCII fragment relevant here. -/
def lowerStr (s : String) : String := ⟨s.data.map Char.toLower⟩

/-- Model of `haystack.includes(needle)` — substring containment. -/
def containsStr (haystack needle : String) : Bool :=
  decide (needle.data <:+: haystack.data)

/-- Whitespace class of the JavaScript regex `\s`. -/
def jsSpace (c : Char) : Bool :=
  c ∈ [' ', '\t', '\n', '\r', '\x0b', '\x0c', '\u00A0', '\uFEFF',
       '\u1680', '\u2000', '\u2001', '\u2002', '\u2003', '\u2004',
       '\u2005', '\u2006', '\u2007', '\u2008', '\u2009', '\u200A',
       '\u2028', '\u2029', '\u202F', '\u205F', '\u3000']

/-- Length of the literal scheme `http://` or `https://` at the head of
the character list, when present. -/
def schemeLen (cs : List Char) : Option Nat :=
  if List.isPrefixOf "https://".data cs then some 8
  else if List.isPrefixOf "http://".data cs then some 7
  else none

/-- Leftmost match of the regex `https?:\/\/[^\s]+` (the URL-discovery
regex at the top of `processLegacyDeviceDebug`): the first position
carrying an `http(s)://` scheme followed by at least one non-space
character, extended greedily over non-space characters. -/
def extractUrlAux : List Char → Option String
  | [] => none
  | c :: rest =>
    match schemeLen (c :: rest) with
    | some n =>
      match (c :: rest).drop n with
      | [] => extractUrlAux rest
      | d :: _ =>
        if jsSpace d then extractUrlAux rest
        else some ⟨(c :: rest).takeWhile (fun x => !jsSpace x)⟩
    | none => extractUrlAux rest

def extractUrl (s : String) : Option String := extractUrlAux s.data

structure UrlParts where
  hostname : String
  pathname : String
  deriving DecidableEq, Repr

/-- Characters that make the WHATWG URL parser reject a host. -/
def forbiddenHostChar (c : Char) : Bool :=
  c ∈ ['\x00', '\t', '\n', '\r', ' ', '#', '%', '<', '>', '?', '@',
       '[', '\\', ']', '^', '|']

/-- Model of the `new URL(s)` builtin for `http(s)` URLs: `none` stands
for the thrown `TypeError: Invalid URL`.  Hostname is the authority cut
at the port separator, lowercased; pathname is the remainder cut at the
query/fragment, defaulting to `/`. -/
def urlParse (s : String) : Option UrlParts :=
  match schemeLen s.data with
  | none => none
  | some n =>
    let rest := s.data.drop n
    let auth := rest.takeWhile (fun c => c ∉ (['/', '?', '#'] : List Char))
    let afterAuth := rest.drop auth.length
    let host := auth.takeWhile (· ≠ ':')
    if host.isEmpty then none
    else if host.any forbiddenHostChar then none
    else
      let path := afterAuth.takeWhile (fun c => c ∉ (['?', '#'] : List Char))
      some { hostname := ⟨host.map Char.toLower⟩,
             pathname := if path.isEmpty then "/" else ⟨path⟩ }

def urlHostname (s : String) : Option String := (urlParse s).map (·.hostname)

/-- First match of the regex `:(\d+)`: the digit run after the first
colon that is immediately followed by a digit. -/
def portMatchAux : List Char → Option String
  | [] => none
  | c :: rest =>
    if c = ':' then
      let ds := rest.takeWhile Char.isDigit
      if ds.isEmpty then portMatchAux rest else some ⟨ds⟩
    else portMatchAux rest

def portMatch (s : String) : Option String := portMatchAux s.data

/-- First capture of the regex `realm="([^"]+)"`. -/
def realmMatchAux : List Char → Option String
  | [] => none
  | c :: rest =>
    if List.isPrefixOf "realm=\"".data (c :: rest) then
      let after := (c :: rest).drop 7
      let captured := after.takeWhile (· ≠ '"')
      if captured.isEmpty then realmMatchAux rest
      else if captured.length < after.length then some ⟨captured⟩
      else realmMatchAux rest
    else realmMatchAux rest

def realmMatch (s : String) : Option String := realmMatchAux s.data

/-- Length matched by `https?:\/\/[^\/]+` anchored at the head of the
list: scheme plus a nonempty run of non-slash characters. -/
def schemeHostMatchLen (cs : List Char) : Option Nat :=
  match schemeLen cs with
  | none => none
  | some n =>
    let hostLen := ((cs.drop n).takeWhile (· ≠ '/')).length
    if hostLen = 0 then none else some (n + hostLen)

/-- Model of `s.replace(/^https?:\/\/[^\/]+/, fqdn)` — anchored first-match
replacement of the scheme+authority prefix. -/
def jsReplaceSchemeHostAnchored (s fqdn : String) : String :=
  match schemeHostMatchLen s.data with
  | some n => ⟨fqdn.data ++ s.data.drop n⟩
  | none => s

/-- Model of `s.replace(/https?:\/\/[^\/]+/, fqdn)` — unanchored: replace the
leftmost scheme+authority occurrence. -/
def jsReplaceFirstSchemeHostAux (fqdn : String) : List Char → List Char
  | [] => []
  | c :: rest =>
    match schemeHostMatchLen (c :: rest) with
    | some n => fqdn.data ++ (c :: rest).drop n
    | none => c :: jsReplaceFirstSchemeHostAux fqdn rest

def jsReplaceFirstSchemeHost (s fqdn : String) : String :=
  ⟨jsReplaceFirstSchemeHostAux fqdn s.data⟩

/-- Concatenation of `f` over a list (per-element pushes into a shared
array, flattened). -/
def concatAll (f : α → List β) : List α → List β
  | [] => []
  | x :: xs => f x ++ concatAll f xs

theorem mem_concatAll {f : α → List β} {b : β} {l : List α} :
    b ∈ concatAll f l ↔ ∃ a ∈ l, b ∈ f a := by
  induction l with
  | nil => simp [concatAll]
  | cons x xs ih => simp [concatAll, ih]

/-- First-match association lookup (JS object property access on the
header record). -/
def lookupStr (key : String) : List (String × String) → Option String
  | [] => none
  | (k, v) :: rest => if k = key then some v else lookupStr key rest

/-- Access `headers[key]` followed by a truthiness test: absent and
empty-string headers both read as "no header". -/
def headerTruthy (hs : List (String × String)) (key : String) : Option String :=
  match lookupStr key hs with
  | some v => if v = "" then none else some v
  | none => none

/-! ## Data model (`ThoughtData`, `RewriteRule`, observations, context) -/

/-- A validated step (interface `ThoughtData`).  The optional fields are
cast without runtime checks in `validateThoughtData`, so they stay raw
`JSVal`s here. -/
structure ThoughtData where
  thought : String
  thoughtNumber : Int
  totalThoughts : Int
  nextThoughtNeeded : Bool
  isRevision : JSVal := .undef
  revisesThought : JSVal := .undef
  branchFromThought : JSVal := .undef
  branchId : JSVal := .undef
  needsMoreThoughts : JSVal := .undef
  deriving DecidableEq, Repr

/-- The raw tool-call arguments before validation (fields absent from the
JSON object are `undef`). -/
structure RawInput where
  thought : JSVal := .undef
  thoughtNumber : JSVal := .undef
  totalThoughts : JSVal := .undef
  nextThoughtNeeded : JSVal := .undef
  isRevision : JSVal := .undef
  revisesThought : JSVal := .undef
  branchFromThought : JSVal := .undef
  branchId : JSVal := .undef
  needsMoreThoughts : JSVal := .undef
  deriving DecidableEq, Repr

inductive RuleType where
  | header
  | body
  | default
  deriving DecidableEq, Repr

inductive RuleAction where
  | find_replace
  | add
  | replace
  | remove
  | append
  | enable
  deriving DecidableEq, Repr

/-- Interface `RewriteRule`. -/
structure RewriteRule where
  type : RuleType
  action : RuleAction
  pattern : Option String := none
  replacement : Option String := none
  headerName : Option String := none
  headerValue : Option String := none
  path : Option String := none
  condition : Option String := none
  description : String
  priority : Int
  deriving DecidableEq, Repr

/-- Interface `NetworkRequest`. -/
structure NetworkRequest where
  url : String
  method : String
  headers : List (String × String) := []
  status : Option Int := none
  responseHeaders : Option (List (String × String)) := none
  body : Option String := none
  isPrivateAPI : Bool
  isDeviceIP : Bool
  error : Option String := none
  deriving DecidableEq, Repr

/-- Interface `ConsoleError`. -/
structure ConsoleError where
  type : String
  message : String
  url : Option String := none
  lineNumber : Option Int := none
  isMimeType : Bool
  isBootstrapJS : Bool
  deriving DecidableEq, Repr

/-- Result of the `curl`-style HEAD probe stored in `curlResults`. -/
structure CurlResults where
  status : Int
  statusText : String
  headers : List (String × String)
  url : String
  deriving DecidableEq, Repr

/-- The mutable `debugContext` aggregate. -/
structure DebugContext where
  deviceUrl : String := ""
  deviceIP : String := ""
  deviceHostname : String := ""
  currentStep : String := ""
  defaultRulesEnabled : Bool := false
  pageLoadStatus : String := ""
  brokenImages : List String := []
  brokenLinks : List String := []
  deviceIPReferences : List String := []
  websocketIssues : List String := []
  redirects : List NetworkRequest := []
  networkRequests : List NetworkRequest := []
  consoleErrors : List ConsoleError := []
  curlResults : Option CurlResults := none
  rewriteRules : List RewriteRule := []
  issues : List String := []
  deriving DecidableEq, Repr

/-- The session object's state: thought ledger, branches, the lazy
browser/page singletons (as presence flags) and the debug context. -/
structure ServerState where
  thoughtHistory : List ThoughtData := []
  branches : List (String × List ThoughtData) := []
  hasBrowser : Bool := false
  hasPage : Bool := false
  debugContext : DebugContext := {}
  deriving DecidableEq, Repr

def initialState : ServerState := {}

/-! ## Oracle inputs for the external collaborators -/

/-- DOM probe result of `step2_AnalyzePageLoading`'s `page.evaluate`. -/
structure PageContent where
  hasBody : Bool
  bodyLength : Nat
  hasLoginForm : Bool
  pageTitle : String := ""
  hasTryAgainMessage : Bool
  deriving DecidableEq, Repr

/-- Outcome of `page.goto` + DOM probe: a thrown navigation/evaluation
error, a `null` response, or a response with status and page content. -/
inductive NavOutcome where
  | thrown (msg : String)
  | noResponse
  | resp (status : Int) (content : PageContent)
  deriving DecidableEq, Repr

/-- DOM probe result of `step3_AnalyzeResources`'s `page.evaluate`. -/
structure ResourceAnalysis where
  brokenImages : List String := []
  allImages : List String := []
  deviceIPLinks : List String := []
  scriptSources : List String := []
  stylesheetSources : List String := []
  staticResources : List String := []
  deriving DecidableEq, Repr

inductive ResOutcome where
  | thrown (msg : String)
  | ok (ra : ResourceAnalysis)
  deriving DecidableEq, Repr

inductive WsOutcome where
  | thrown (msg : String)
  | ok (hasWebSocket : Bool)
  deriving DecidableEq, Repr

/-- Outcome of the `fetch` HEAD probe in `step7_PerformCurlAnalysis`. -/
inductive CurlOutcome where
  | thrown (msg : String)
  | ok (status : Int) (statusText : String)
      (headers : List (String × String)) (finalUrl : String)
  deriving DecidableEq, Repr

/-- One submission's worth of collaborator behaviour. -/
structure World where
  nav : NavOutcome := .noResponse
  res : ResOutcome := .ok {}
  ws : WsOutcome := .ok false
  curl : CurlOutcome := .thrown "fetch failed"
  deriving Repr

def emptyWorld : World := {}

/-! ## Target-classification helpers -/

/-- Source `isPrivateAPICall` (lines 182-187): markers are tested against
the whole URL string. -/
def isPrivateAPICall (url : String) : Bool :=
  containsStr url "/private-api/" ||
  containsStr url "/api/private/" ||
  containsStr url "/internal/" ||
  containsStr (lowerStr url) "private"

/-- The private-IP-range regex
`^(192\.168\.|10\.|172\.(1[6-9]|2[0-9]|3[01])\.|127\.)`. -/
def privateIPRangeTest (host : String) : Bool :=
  host.startsWith "192.168." ||
  host.startsWith "10." ||
  (List.range 16).any (fun i => host.startsWith ("172." ++ toString (16 + i) ++ ".")) ||
  host.startsWith "127."

/-- Source `isDeviceIPOrHostname` (lines 164-180): false while no target
URL is set; hostname equality with the target, else the private-IP
pattern; any URL-parse failure is caught and yields false. -/
def isDeviceIPOrHostname (deviceUrl url : String) : Bool :=
  if deviceUrl = "" then false
  else
    match urlParse url, urlParse deviceUrl with
    | some u, some d =>
      if u.hostname = d.hostname then true else privateIPRangeTest u.hostname
    | _, _ => false

/-- The `page.on('request')` handler: fold a request event into the
context as a `NetworkRequest` observation. -/
def recordRequest (ctx : DebugContext) (url method : String)
    (headers : List (String × String)) : DebugContext :=
  { ctx with networkRequests := ctx.networkRequests ++
      [{ url := url, method := method, headers := headers,
         isPrivateAPI := isPrivateAPICall url,
         isDeviceIP := isDeviceIPOrHostname ctx.deviceUrl url }] }

/-- The `page.on('console')` handler: derive the signature flags and
retain the observation only for errors or matched signatures. -/
def recordConsoleEvent (ctx : DebugContext) (msgType msgText : String)
    (url : Option String) (line : Option Int) : DebugContext :=
  let ce : ConsoleError :=
    { type := msgType, message := msgText, url := url, lineNumber := line,
      isMimeType := containsStr (lowerStr msgText) "mime type",
      isBootstrapJS := containsStr (lowerStr msgText) "bootstrap.js" }
  if msgType = "error" || ce.isMimeType || ce.isBootstrapJS then
    { ctx with consoleErrors := ctx.consoleErrors ++ [ce] }
  else ctx

/-! ## Placeholder tokens (kept as opaque literals in rule values) -/

def FQDN_TOK : String := "\x7b\x7bDEVICE_EXTERNAL_FQDN\x7d\x7d"
def INTERNAL_IP_TOK : String := "\x7b\x7bDEVICE_INTERNAL_IP\x7d\x7d"
def DEVICE_IP_TOK : String := "\x7b\x7bDEVICE_IP\x7d\x7d"
def DEVICE_HOSTNAME_TOK : String := "\x7b\x7bDEVICE_HOSTNAME\x7d\x7d"
def DEVICE_REAL_IP_TOK : String := "\x7b\x7bDEVICE_REAL_IP\x7d\x7d"

/-! ## Phase 1: enable default rules -/

/-- The four baseline rules seeded by `step1_EnableDefaultRules`. -/
def defaultRulesList : List RewriteRule :=
  [{ type := .default, action := .enable,
     description := "Enable default proxy rules - ALWAYS FIRST STEP",
     priority := 1 },
   { type := .header, action := .add,
     headerName := some "X-Forwarded-Host", headerValue := some FQDN_TOK,
     description := "Add forwarded host header for proper routing",
     priority := 2 },
   { type := .header, action := .add,
     headerName := some "X-Forwarded-Proto", headerValue := some "https",
     description := "Add forwarded protocol header for HTTPS",
     priority := 3 },
   { type := .header, action := .replace,
     headerName := some "Host", pattern := some ".*",
     replacement := some INTERNAL_IP_TOK,
     description := "Replace host header with device internal IP",
     priority := 4 }]

def step1_EnableDefaultRules (ctx : DebugContext) : DebugContext :=
  if ctx.defaultRulesEnabled then ctx
  else
    { ctx with
      currentStep := "Step 1: Enable Default Rules",
      defaultRulesEnabled := true,
      rewriteRules := ctx.rewriteRules ++ defaultRulesList,
      issues := ctx.issues ++
        ["Default rules enabled - baseline proxy configuration applied"] }

/-! ## Phase 2: page loading analysis -/

def hostFixRule (deviceHostname : String) : RewriteRule :=
  { type := .header, action := .add, headerName := some "Host",
    headerValue := some (if deviceHostname = "" then DEVICE_HOSTNAME_TOK
                         else deviceHostname),
    description := "Fix hostname requirement for device (Error 400)",
    priority := 10 }

def realIPRule : RewriteRule :=
  { type := .header, action := .add, headerName := some "X-Real-IP",
    headerValue := some DEVICE_REAL_IP_TOK,
    description := "Add real IP address for device authentication",
    priority := 11 }

/-- The `pageLoadStatus` assigned by `step2_AnalyzePageLoading` in each
branch of its try/catch. -/
def step2Status : NavOutcome → String
  | .thrown _ => "not_loaded"
  | .noResponse => "not_loaded"
  | .resp status content =>
    if status = 400 then "not_loaded"
    else if !content.hasBody || content.bodyLength < 100 then "not_loaded"
    else if !content.hasLoginForm && status ≠ 200 then "partially_loaded"
    else if content.hasLoginForm then "fully_loaded"
    else "fully_loaded"

def step2Issues : NavOutcome → List String
  | .thrown msg => [s!"Page loading failed with error: {msg}"]
  | .noResponse =>
    ["CRITICAL: Web page is not loaded at all - no response from device"]
  | .resp status content =>
    if status = 400 then
      ["ERROR 400 hostname invalid - device requires specific hostname"]
    else
      (if !content.hasBody || content.bodyLength < 100 then
        ["Web page is not loaded at all - no content detected"]
      else if !content.hasLoginForm && status ≠ 200 then
        ["Web page is partially loaded - missing login elements"]
      else if content.hasLoginForm then
        ["Web page loaded successfully with login form detected"]
      else []) ++
      (if content.hasTryAgainMessage then
        ["LOGIN ISSUE: \x27Try again\x27 message detected - common after device upgrade",
         "RECOMMENDATION: Apply comprehensive rewrite rules and check for Alpha weblink requirement"]
      else [])

def step2Rules (deviceHostname : String) : NavOutcome → List RewriteRule
  | .resp status _ =>
    if status = 400 then [hostFixRule deviceHostname, realIPRule] else []
  | _ => []

def step2_AnalyzePageLoading (nav : NavOutcome) (hasPage : Bool)
    (ctx : DebugContext) : DebugContext :=
  if ctx.deviceUrl = "" || !hasPage then ctx
  else
    { ctx with
      currentStep := "Step 2: Analyze Page Loading Status",
      pageLoadStatus := step2Status nav,
      issues := ctx.issues ++ step2Issues nav,
      rewriteRules := ctx.rewriteRules ++ step2Rules ctx.deviceHostname nav }

/-! ## Phase 3: resource analysis -/

def imgRuleFor (imgSrc : String) : RewriteRule :=
  match urlParse imgSrc with
  | some u =>
    { type := .body, action := .find_replace,
      pattern := some (u.hostname ++ u.pathname),
      replacement := some (FQDN_TOK ++ u.pathname),
      description := "Fix broken image resource: " ++ u.pathname,
      priority := 20 }
  | none =>
    { type := .body, action := .find_replace,
      pattern := some imgSrc,
      replacement := some (jsReplaceSchemeHostAnchored imgSrc FQDN_TOK),
      description := "Fix broken image: " ++ imgSrc,
      priority := 20 }

def linkRuleFor (link : String) : RewriteRule :=
  match urlParse link with
  | some u =>
    { type := .body, action := .find_replace,
      pattern := some (u.hostname ++ u.pathname),
      replacement := some (FQDN_TOK ++ u.pathname),
      description := "Fix device IP link: " ++ u.pathname,
      priority := 21 }
  | none =>
    { type := .body, action := .find_replace,
      pattern := some link,
      replacement := some (jsReplaceSchemeHostAnchored link FQDN_TOK),
      description := "Fix device IP link: " ++ link,
      priority := 21 }

def staticRulesFor (res : String) : List RewriteRule :=
  if containsStr res "/static/" || containsStr res "/assets/" then
    [{ type := .body, action := .find_replace,
       pattern := some res,
       replacement := some (jsReplaceSchemeHostAnchored res FQDN_TOK),
       description := s!"Fix static resource path: {res}",
       priority := 22 }]
  else []

def step3_AnalyzeResources (res : ResOutcome) (hasPage : Bool)
    (ctx : DebugContext) : DebugContext :=
  if !hasPage then ctx
  else
    let ctx := { ctx with
      currentStep := "Step 3: Analyze Resources (Images, Links, Static Files)" }
    match res with
    | .thrown msg =>
      { ctx with issues := ctx.issues ++ [s!"Resource analysis failed: {msg}"] }
    | .ok ra =>
      let brokenImgs := ra.brokenImages.filter
        (fun src => isDeviceIPOrHostname ctx.deviceUrl src)
      let statics := ra.scriptSources ++ ra.stylesheetSources
      { ctx with
        brokenImages := brokenImgs,
        brokenLinks := ra.deviceIPLinks,
        issues := ctx.issues ++
          (if brokenImgs.length > 0 then
            [s!"RESOURCE ISSUE: Found {brokenImgs.length} broken images pointing to device IP/hostname"]
          else []) ++
          (if ra.deviceIPLinks.length > 0 then
            [s!"LINK ISSUE: Found {ra.deviceIPLinks.length} links pointing to device IP - links not working"]
          else []) ++
          (if statics.length > 0 then
            [s!"STATIC RESOURCE ISSUE: Found {statics.length} static resources that may need rewriting"]
          else []),
        rewriteRules := ctx.rewriteRules ++
          brokenImgs.map imgRuleFor ++
          ra.deviceIPLinks.map linkRuleFor ++
          concatAll staticRulesFor statics }

/-! ## Phase 4: WebSocket analysis -/

def wsPorts : List Int := [8080, 8081, 8443, 9001]

def wsRuleFor (host : String) (port : Int) : RewriteRule :=
  { type := .body, action := .find_replace,
    pattern := some ("ws://" ++ host ++ ":" ++ toString port),
    replacement := some ("wss://" ++ FQDN_TOK ++ ":" ++ toString port),
    description := s!"Fix WebSocket connection on port {port}",
    priority := 30 }

def step4Issues (deviceUrl : String) : WsOutcome → List String
  | .thrown msg => [s!"WebSocket analysis failed: {msg}"]
  | .ok false => []
  | .ok true =>
    ["WebSocket connections detected - may need special proxy handling"] ++
    (match urlParse deviceUrl with
     | some _ => []
     | none => ["WebSocket analysis failed: TypeError: Invalid URL"])

def step4WsNotes : WsOutcome → List String
  | .ok true => ["WebSocket connections detected"]
  | _ => []

def step4Rules (deviceUrl : String) : WsOutcome → List RewriteRule
  | .ok true =>
    match urlParse deviceUrl with
    | some du => wsPorts.map (wsRuleFor du.hostname)
    | none => []
  | _ => []

def step4_AnalyzeWebSocket (ws : WsOutcome) (hasPage : Bool)
    (ctx : DebugContext) : DebugContext :=
  let ctx := { ctx with currentStep := "Analyze WebSocket Connections" }
  if !hasPage then ctx
  else
    { ctx with
      websocketIssues := ctx.websocketIssues ++ step4WsNotes ws,
      issues := ctx.issues ++ step4Issues ctx.deviceUrl ws,
      rewriteRules := ctx.rewriteRules ++ step4Rules ctx.deviceUrl ws }

/-! ## Phase 5: redirect analysis -/

def isRedirectStatus (req : NetworkRequest) : Bool :=
  match req.status with
  | some st => st ≥ 300 && st < 400
  | none => false

def redirectLocation (req : NetworkRequest) : Option String :=
  match req.responseHeaders with
  | some hs => lookupStr "location" hs
  | none => none

def redirectIssuesFor (req : NetworkRequest) : List String :=
  match redirectLocation req with
  | some loc =>
    match portMatch loc with
    | some p => [s!"Device redirects to port {p} - consider onboarding with this port"]
    | none => []
  | none => []

def redirectRulesFor (req : NetworkRequest) : List RewriteRule :=
  match redirectLocation req with
  | some loc =>
    [{ type := .header, action := .replace, headerName := some "Location",
       pattern := some loc,
       replacement := some (jsReplaceFirstSchemeHost loc FQDN_TOK),
       description := s!"Fix redirect to: {loc}",
       priority := 40 }]
  | none => []

def step5_AnalyzeRedirects (ctx : DebugContext) : DebugContext :=
  let redirects := ctx.networkRequests.filter isRedirectStatus
  { ctx with
    currentStep := "Analyze Redirects",
    redirects := redirects,
    issues := ctx.issues ++
      (if redirects.length > 0 then
        [s!"Found {redirects.length} redirects - potential for redirect loops"] ++
        concatAll redirectIssuesFor redirects
      else []),
    rewriteRules := ctx.rewriteRules ++
      (if redirects.length > 0 then concatAll redirectRulesFor redirects
       else []) }

/-! ## Phase 6: network failures and console errors -/

def isNetworkError (req : NetworkRequest) : Bool :=
  match req.status with
  | some st => st ≥ 400
  | none => false

def staticPathLike (url : String) : Bool :=
  containsStr url "/static/" || containsStr url "/assets/" ||
  containsStr url "/js/" || containsStr url "/css/"

def statusText (req : NetworkRequest) : String :=
  match req.status with
  | some st => toString st
  | none => "undefined"

def netErrorIssuesFor (req : NetworkRequest) : List String :=
  if req.status = some 404 then
    [s!"404 ERROR: " ++ req.url ++ " - resource not found"]
  else if req.status = some 500 then
    ["500 ERROR: " ++ req.url ++ " - server error"]
  else []

def netErrorRuleFor (req : NetworkRequest) : RewriteRule :=
  match urlParse req.url with
  | some u =>
    { type := .body, action := .find_replace,
      pattern := some (u.hostname ++ u.pathname),
      replacement := some (FQDN_TOK ++ u.pathname),
      description := "Fix " ++ statusText req ++ " error for static resource: " ++ u.pathname,
      priority := 50 }
  | none =>
    { type := .body, action := .find_replace,
      pattern := some req.url,
      replacement := some (jsReplaceSchemeHostAnchored req.url FQDN_TOK),
      description := "Fix " ++ statusText req ++ " error for: " ++ req.url,
      priority := 50 }

def netErrorRulesFor (req : NetworkRequest) : List RewriteRule :=
  if req.isDeviceIP && staticPathLike req.url then [netErrorRuleFor req] else []

def netIssues (networkErrors : List NetworkRequest) : List String :=
  if networkErrors.length > 0 then
    [s!"NETWORK ERRORS: Found {networkErrors.length} network errors (404/500)"] ++
    concatAll netErrorIssuesFor networkErrors
  else []

def netRules (networkErrors : List NetworkRequest) : List RewriteRule :=
  if networkErrors.length > 0 then concatAll netErrorRulesFor networkErrors
  else []

def jsMimeRule : RewriteRule :=
  { type := .header, action := .add, headerName := some "Content-Type",
    headerValue := some "application/javascript",
    condition := some "path ends with .js",
    description := "Fix MIME type mismatch for JavaScript files",
    priority := 60 }

def cssMimeRule : RewriteRule :=
  { type := .header, action := .add, headerName := some "Content-Type",
    headerValue := some "text/css",
    condition := some "path ends with .css",
    description := "Fix MIME type mismatch for CSS files",
    priority := 61 }

def mimeIssues (mimeTypeErrors : List ConsoleError) : List String :=
  if mimeTypeErrors.length > 0 then
    [s!"MIME TYPE ISSUE: {mimeTypeErrors.length} MIME type mismatch errors detected in console"]
  else []

def mimeRules (mimeTypeErrors : List ConsoleError) : List RewriteRule :=
  if mimeTypeErrors.length > 0 then [jsMimeRule, cssMimeRule] else []

/-- The single DSD-3756 fix rule emitted for the bootstrap-script
signature. -/
def bootstrapRule : RewriteRule :=
  { type := .body, action := .find_replace,
    pattern := some "https", replacement := some "spdy",
    path := some "bootstrap.js",
    description := "Fix bootstrap.js HTTPS protocol issue (DSD-3756) - Critical OT fix",
    priority := 70 }

def bootstrapIssue1 : String :=
  "BOOTSTRAP.JS ISSUE: Bootstrap.js HTTPS protocol issue detected (Reference: DSD-3756)"
def bootstrapIssue2 : String :=
  "ROOT CAUSE: Device configured as HTTP but accessed via HTTPS through RA portal"
def bootstrapIssue3 : String :=
  "NOTE: If bootstrap.js file is updated, this rule may need adjustment"
def bootstrapIssue4 : String :=
  "ALTERNATIVE: If HTTPS is properly configured on device, onboard as HTTPS and remove this rule"

def bootstrapIssues (bootstrapErrors : List ConsoleError) : List String :=
  if bootstrapErrors.length > 0 then
    [bootstrapIssue1, bootstrapIssue2, bootstrapIssue3, bootstrapIssue4]
  else []

def bootstrapRules (bootstrapErrors : List ConsoleError) : List RewriteRule :=
  if bootstrapErrors.length > 0 then [bootstrapRule] else []

def privateAPIRuleFor (url : String) : RewriteRule :=
  { type := .body, action := .find_replace,
    pattern := some DEVICE_IP_TOK, replacement := some FQDN_TOK,
    path := some (if containsStr url "/private-api/" then "/private-api/*"
                  else "/api/private/*"),
    description := s!"JSON body rewrite for private API: {url}",
    priority := 75 }

def privateIssues (privateAPICalls : List NetworkRequest) : List String :=
  if privateAPICalls.length > 0 then
    [s!"PRIVATE API ISSUE: Found {privateAPICalls.length} private API calls - may need JSON body rewrite",
     "IMPORTANT: Enable JSON body rewrite for private API endpoints"]
  else []

def privateRules (privateAPICalls : List NetworkRequest) : List RewriteRule :=
  if privateAPICalls.length > 0 then
    privateAPICalls.map (fun c => privateAPIRuleFor c.url)
  else []

def consolePatternIssuesFor (e : ConsoleError) : List String :=
  (if containsStr (lowerStr e.message) "websocket" then
    [s!"WEBSOCKET CONSOLE ERROR: {e.message}"] else []) ++
  (if containsStr (lowerStr e.message) "cors" then
    [s!"CORS ERROR: {e.message} - may need header rules"] else []) ++
  (if containsStr (lowerStr e.message) "certificate" then
    [s!"SSL CERTIFICATE ERROR: {e.message}"] else [])

def step6_AnalyzeNetworkAndConsole (ctx : DebugContext) : DebugContext :=
  let networkErrors := ctx.networkRequests.filter isNetworkError
  let mimeTypeErrors := ctx.consoleErrors.filter (·.isMimeType)
  let bootstrapErrors := ctx.consoleErrors.filter (·.isBootstrapJS)
  let privateAPICalls := ctx.networkRequests.filter (·.isPrivateAPI)
  { ctx with
    currentStep := "Step 6: Analyze Network Failures and Console Errors",
    issues := ctx.issues ++
      netIssues networkErrors ++
      mimeIssues mimeTypeErrors ++
      bootstrapIssues bootstrapErrors ++
      privateIssues privateAPICalls ++
      concatAll consolePatternIssuesFor ctx.consoleErrors,
    rewriteRules := ctx.rewriteRules ++
      netRules networkErrors ++
      mimeRules mimeTypeErrors ++
      bootstrapRules bootstrapErrors ++
      privateRules privateAPICalls }

/-! ## Phase 7: curl-style header probe -/

def locationRule80 (loc : String) : RewriteRule :=
  { type := .header, action := .replace, headerName := some "Location",
    pattern := some loc,
    replacement := some (jsReplaceFirstSchemeHost loc FQDN_TOK),
    description := "Fix Location header hostname reference",
    priority := 80 }

def serverHostRule : RewriteRule :=
  { type := .header, action := .add, headerName := some "Host",
    headerValue := some DEVICE_HOSTNAME_TOK,
    description := "Server requires specific hostname",
    priority := 81 }

def cookieDomainRule : RewriteRule :=
  { type := .header, action := .replace, headerName := some "Set-Cookie",
    pattern := some "domain=[^;]+",
    replacement := some ("domain=" ++ FQDN_TOK),
    description := "Fix cookie domain reference",
    priority := 82 }

def knownOTPorts : List String := ["443", "8443", "8501", "8080", "80"]

def step7LocationIssues (deviceUrl : String)
    (hs : List (String × String)) : List String :=
  match headerTruthy hs "location" with
  | some loc =>
    [s!"REDIRECT DETECTED: Location header points to {loc}"] ++
    (if isDeviceIPOrHostname deviceUrl loc then
      ["REDIRECT ISSUE: Location header contains device IP/hostname"]
    else []) ++
    (match portMatch loc with
     | some p =>
       [s!"PORT RECOMMENDATION: Device redirects to port {p} - consider onboarding with this port"] ++
       (if knownOTPorts.contains p then
         [s!"KNOWN PORT: Port {p} is a common OT device port"]
       else [])
     | none => [])
  | none => []

def step7LocationRules (deviceUrl : String)
    (hs : List (String × String)) : List RewriteRule :=
  match headerTruthy hs "location" with
  | some loc =>
    if isDeviceIPOrHostname deviceUrl loc then [locationRule80 loc] else []
  | none => []

def step7ServerIssues (hs : List (String × String)) : List String :=
  match headerTruthy hs "server" with
  | some sv =>
    if containsStr sv "hostname" || containsStr sv "Host" then
      [s!"HOSTNAME REQUIREMENT: Server header indicates hostname requirement: {sv}"]
    else []
  | none => []

def step7ServerRules (hs : List (String × String)) : List RewriteRule :=
  match headerTruthy hs "server" with
  | some sv =>
    if containsStr sv "hostname" || containsStr sv "Host" then [serverHostRule]
    else []
  | none => []

def step7AuthIssues (hs : List (String × String)) : List String :=
  match headerTruthy hs "www-authenticate" with
  | some wa =>
    [s!"AUTHENTICATION: {wa}"] ++
    (if containsStr wa "realm" then
      match realmMatch wa with
      | some realm => [s!"AUTH REALM: {realm}"]
      | none => []
    else [])
  | none => []

def step7CspIssues (hs : List (String × String)) : List String :=
  match headerTruthy hs "content-security-policy" with
  | some csp =>
    ["CSP DETECTED: Content Security Policy may block proxy resources"] ++
    (if containsStr csp "localhost" || containsStr csp "127.0.0.1" ||
        containsStr csp "192.168." then
      ["CSP ISSUE: Policy contains local references that may cause issues"]
    else [])
  | none => []

def step7HstsIssues (hs : List (String × String)) : List String :=
  match headerTruthy hs "strict-transport-security" with
  | some hsts => [s!"HSTS DETECTED: {hsts} - may affect HTTP to HTTPS transitions"]
  | none => []

def step7CookieIssues (deviceUrl : String)
    (hs : List (String × String)) : List String :=
  match headerTruthy hs "set-cookie" with
  | some sc =>
    if containsStr sc "domain=" && isDeviceIPOrHostname deviceUrl sc then
      ["COOKIE DOMAIN ISSUE: Set-Cookie contains device domain - may need rewrite"]
    else []
  | none => []

def step7CookieRules (deviceUrl : String)
    (hs : List (String × String)) : List RewriteRule :=
  match headerTruthy hs "set-cookie" with
  | some sc =>
    if containsStr sc "domain=" && isDeviceIPOrHostname deviceUrl sc then
      [cookieDomainRule]
    else []
  | none => []

def step7XFrameIssues (hs : List (String × String)) : List String :=
  match headerTruthy hs "x-frame-options" with
  | some xf =>
    if containsStr xf "DENY" || containsStr xf "SAMEORIGIN" then
      [s!"X-FRAME-OPTIONS: {xf} - may prevent iframe embedding in RA portal"]
    else []
  | none => []

def step7_PerformCurlAnalysis (curl : CurlOutcome)
    (ctx : DebugContext) : DebugContext :=
  let ctx := { ctx with currentStep := "Step 7: Perform Detailed Curl Analysis" }
  match curl with
  | .thrown msg =>
    { ctx with issues := ctx.issues ++
        [s!"Curl analysis failed: {msg}",
         "RECOMMENDATION: Try accessing device directly via jbox browser for manual analysis"] }
  | .ok status stext hs finalUrl =>
    { ctx with
      curlResults := some { status := status, statusText := stext,
                            headers := hs, url := finalUrl },
      issues := ctx.issues ++
        [s!"CURL ANALYSIS: HTTP {status} {stext}"] ++
        step7LocationIssues ctx.deviceUrl hs ++
        step7ServerIssues hs ++
        step7AuthIssues hs ++
        step7CspIssues hs ++
        step7HstsIssues hs ++
        step7CookieIssues ctx.deviceUrl hs ++
        step7XFrameIssues hs,
      rewriteRules := ctx.rewriteRules ++
        step7LocationRules ctx.deviceUrl hs ++
        step7ServerRules hs ++
        step7CookieRules ctx.deviceUrl hs }

/-! ## Browser lifecycle -/

def initBrowser (s : ServerState) : ServerState :=
  { s with hasBrowser := true, hasPage := true }

def closeBrowser (s : ServerState) : ServerState :=
  { s with hasBrowser := false, hasPage := false }

/-! ## Report generation

`Array.prototype.sort` with the comparator `(a, b) => a.priority - b.priority`
is a stable in-place sort (ES2019); it is modelled by a stable insertion
sort, and the in-place mutation by returning the updated state alongside
the report. -/

/-- Stable insertion into a priority-sorted list: the new element goes
before the first strictly-greater element, i.e. after all earlier equal
priorities seen so far. -/
def insertRule (x : RewriteRule) : List RewriteRule → List RewriteRule
  | [] => [x]
  | y :: ys => if y.priority < x.priority then y :: insertRule x ys
               else x :: y :: ys

/-- Stable sort by ascending priority, modelling
`rewriteRules.sort((a, b) => a.priority - b.priority)`. -/
def sortRulesByPriority : List RewriteRule → List RewriteRule
  | [] => []
  | x :: xs => insertRule x (sortRulesByPriority xs)

structure ReportSummary where
  deviceUrl : String
  deviceIP : String
  deviceHostname : String
  pageLoadStatus : String
  totalIssues : Nat
  totalRules : Nat
  stepsCompleted : Nat
  debuggingWorkflow : String
  deriving DecidableEq, Repr

structure RulesSection where
  defaultRules : List RewriteRule
  headerRewrites : List RewriteRule
  bodyRewrites : List RewriteRule
  totalRules : Nat
  priorityOrder : String
  deriving DecidableEq, Repr

structure NetworkSection where
  totalRequests : Nat
  errors404 : Nat
  errors500 : Nat
  privateAPICalls : Nat
  deviceIPRequests : Nat
  recommendJSONBodyRewrite : Bool
  deriving DecidableEq, Repr

structure ConsoleSection where
  totalErrors : Nat
  mimeTypeErrors : Nat
  bootstrapJSErrors : Nat
  websocketErrors : Nat
  deriving DecidableEq, Repr

structure ResourceSection where
  brokenImages : Nat
  brokenLinks : Nat
  redirectsDetected : Nat
  deriving DecidableEq, Repr

structure FindingsSection where
  hostnameRequirement : Bool
  realIPRequirement : Bool
  bootstrapJSIssue : Bool
  mimeTypeIssue : Bool
  redirectIssue : Bool
  tryAgainError : Bool
  error400Hostname : Bool
  deriving DecidableEq, Repr

structure Report where
  summary : ReportSummary
  issuesFound : List String
  rewriteRulesForRAPortal : RulesSection
  networkAnalysis : NetworkSection
  consoleAnalysis : ConsoleSection
  resourceAnalysis : ResourceSection
  otSpecificFindings : FindingsSection
  immediateActions : List String
  troubleshootingSteps : List String
  escalationPath : List String
  customerRequirements : List String
  commonOTDevicePorts : List (String × String)
  deriving DecidableEq, Repr

def immediateActionsList : List String :=
  ["1. FIRST: Apply generated rewrite rules to RA portal device configuration in priority order",
   "2. Test device access via RA portal after applying rules",
   "3. If page shows \x27Try again\x27 error: Apply all header and body rewrite rules",
   "4. If Error 400 hostname invalid: Ensure Host header rewrite is applied",
   "5. If bootstrap.js errors: Apply https→spdy replacement rule (DSD-3756 fix)",
   "6. If MIME type errors: Apply Content-Type header rules",
   "7. If private API calls detected: Enable JSON body rewrite",
   "8. If redirect issues: Consider onboarding with suggested port"]

def troubleshootingStepsList : List String :=
  ["1. Enable default rules (completed automatically)",
   "2. Look for network failure and console errors (completed)",
   "3. Check using curl analysis (completed)",
   "4. If issues persist: Access device directly via jbox browser",
   "5. Deploy browser service (iotium/qa padma-firefox) on iNode for local testing",
   "6. Onboard browser as HTTP device on port 5800 for local access",
   "7. Use F12 developer tools to analyze request/response in jbox browser"]

def escalationPathList : List String :=
  ["1. If login still fails after applying rules: Create Alpha weblink DOSD ticket",
   "2. Tag issue as \x27proxy-aware\x27 in JIRA for future reference",
   "3. If complex issues found: Get DevOps team involvement",
   "4. Check previous history: https://neeve.atlassian.net/issues/?jql=labels%20%3D%20proxy-aware%20ORDER%20BY%20created%20DESC"]

def customerRequirementsList : List String :=
  ["1. Obtain temporary access credentials to the device",
   "2. Get any fixed hostname assigned to the device",
   "3. Understand how customer accesses device directly within network",
   "4. Get device firmware/software version information",
   "5. Determine if recent device upgrade caused the issue"]

def commonOTDevicePortsList : List (String × String) :=
  [("443", "HTTPS - most common for secure devices"),
   ("8443", "Alternative HTTPS port"),
   ("8501", "Common for industrial devices"),
   ("8080", "HTTP alternative"),
   ("80", "Standard HTTP"),
   ("note", "If redirects detected, try onboarding with the redirect port")]

/-- Source `generateFinalReport` (lines 947-1050).  The catalog sort is
in place (`this.debugContext.rewriteRules.sort(...)`), so the state
after the call is returned alongside the report. -/
def generateFinalReport (st : ServerState) : ServerState × Report :=
  let ctx := st.debugContext
  let sortedRules := sortRulesByPriority ctx.rewriteRules
  ({ st with debugContext := { ctx with rewriteRules := sortedRules } },
   { summary :=
       { deviceUrl := ctx.deviceUrl, deviceIP := ctx.deviceIP,
         deviceHostname := ctx.deviceHostname,
         pageLoadStatus := ctx.pageLoadStatus,
         totalIssues := ctx.issues.length,
         totalRules := sortedRules.length,
         stepsCompleted := st.thoughtHistory.length,
         debuggingWorkflow := "OT Production Workflow - 7 Steps Completed" },
     issuesFound := ctx.issues,
     rewriteRulesForRAPortal :=
       { defaultRules := sortedRules.filter (fun r => r.type = RuleType.default),
         headerRewrites := sortedRules.filter (fun r => r.type = RuleType.header),
         bodyRewrites := sortedRules.filter (fun r => r.type = RuleType.body),
         totalRules := sortedRules.length,
         priorityOrder := "Apply rules in priority order (1 = highest priority)" },
     networkAnalysis :=
       { totalRequests := ctx.networkRequests.length,
         errors404 := (ctx.networkRequests.filter (fun r => r.status = some 404)).length,
         errors500 := (ctx.networkRequests.filter (fun r => r.status = some 500)).length,
         privateAPICalls := (ctx.networkRequests.filter (·.isPrivateAPI)).length,
         deviceIPRequests := (ctx.networkRequests.filter (·.isDeviceIP)).length,
         recommendJSONBodyRewrite :=
           (ctx.networkRequests.filter (·.isPrivateAPI)).length > 0 },
     consoleAnalysis :=
       { totalErrors := ctx.consoleErrors.length,
         mimeTypeErrors := (ctx.consoleErrors.filter (·.isMimeType)).length,
         bootstrapJSErrors := (ctx.consoleErrors.filter (·.isBootstrapJS)).length,
         websocketErrors :=
           (ctx.consoleErrors.filter (fun e => containsStr e.message "websocket")).length },
     resourceAnalysis :=
       { brokenImages := ctx.brokenImages.length,
         brokenLinks := ctx.brokenLinks.length,
         redirectsDetected := ctx.redirects.length },
     otSpecificFindings :=
       { hostnameRequirement := ctx.issues.any (fun i => containsStr i "hostname"),
         realIPRequirement := ctx.issues.any (fun i => containsStr i "Real IP"),
         bootstrapJSIssue := ctx.issues.any (fun i => containsStr i "bootstrap.js"),
         mimeTypeIssue := ctx.issues.any (fun i => containsStr i "MIME type"),
         redirectIssue := ctx.issues.any (fun i => containsStr i "redirect"),
         tryAgainError := ctx.issues.any (fun i => containsStr i "Try again"),
         error400Hostname := ctx.issues.any (fun i => containsStr i "400 hostname") },
     immediateActions := immediateActionsList,
     troubleshootingSteps := troubleshootingStepsList,
     escalationPath := escalationPathList,
     customerRequirements := customerRequirementsList,
     commonOTDevicePorts := commonOTDevicePortsList })

/-! ## Step dispatcher (`processLegacyDeviceDebug`) -/

/-- Source `validateThoughtData` (lines 107-134).  Each required field is
rejected when falsy or of the wrong runtime type. -/
def validateThoughtData (input : RawInput) : Except String ThoughtData :=
  if !jsTruthy input.thought || !jsIsString input.thought then
    .error "Invalid thought: must be a string"
  else if !jsTruthy input.thoughtNumber || !jsIsNumber input.thoughtNumber then
    .error "Invalid thoughtNumber: must be a number"
  else if !jsTruthy input.totalThoughts || !jsIsNumber input.totalThoughts then
    .error "Invalid totalThoughts: must be a number"
  else if !jsIsBoolean input.nextThoughtNeeded then
    .error "Invalid nextThoughtNeeded: must be a boolean"
  else
    .ok { thought := jsAsString input.thought,
          thoughtNumber := jsAsNumber input.thoughtNumber,
          totalThoughts := jsAsNumber input.totalThoughts,
          nextThoughtNeeded := jsAsBool input.nextThoughtNeeded,
          isRevision := input.isRevision,
          revisesThought := input.revisesThought,
          branchFromThought := input.branchFromThought,
          branchId := input.branchId,
          needsMoreThoughts := input.needsMoreThoughts }

/-- Target-URL discovery (source lines 851-857): on a match of the URL
regex while no target is set, `deviceUrl` is assigned first and the
hostname derivation may then throw (`error` case: the mutated context
plus the caught message). -/
def urlDiscovery (ctx : DebugContext) (thought : String) :
    Except (DebugContext × String) DebugContext :=
  match extractUrl thought with
  | some u =>
    if ctx.deviceUrl = "" then
      let ctx1 := { ctx with deviceUrl := u }
      match urlParse u with
      | some parts =>
        .ok { ctx1 with deviceIP := parts.hostname,
                        deviceHostname := parts.hostname }
      | none => .error (ctx1, "TypeError: Invalid URL")
    else .ok ctx
  | none => .ok ctx

/-- Upsert-append into the `branches` record. -/
def pushBranch (branches : List (String × List ThoughtData)) (id : String)
    (td : ThoughtData) : List (String × List ThoughtData) :=
  match branches with
  | [] => [(id, [td])]
  | (k, l) :: rest =>
    if k = id then (k, l ++ [td]) :: rest
    else (k, l) :: pushBranch rest id td

inductive Phase where
  | enableDefaults
  | pageLoad
  | resources
  | websocket
  | redirects
  | networkConsole
  | curlProbe
  deriving DecidableEq, Repr

inductive DispatchAction where
  | phase (p : Phase)
  | finish
  | noMatch
  deriving DecidableEq, Repr

def DispatchAction.phaseOf : DispatchAction → Option Phase
  | .phase p => some p
  | _ => none

/-- The keyword cascade of `processLegacyDeviceDebug` (source lines
872-897), on the lower-cased step text. -/
def dispatchAction (t : String) : DispatchAction :=
  if containsStr t "start" || containsStr t "initialize" then
    .phase .enableDefaults
  else if containsStr t "page load" || containsStr t "login page" then
    .phase .pageLoad
  else if containsStr t "images" || containsStr t "links" || containsStr t "resources" then
    .phase .resources
  else if containsStr t "websocket" || containsStr t "ws://" then
    .phase .websocket
  else if containsStr t "redirect" || containsStr t "port" then
    .phase .redirects
  else if containsStr t "network" || containsStr t "console" || containsStr t "error" then
    .phase .networkConsole
  else if containsStr t "curl" || containsStr t "header" then
    .phase .curlProbe
  else if containsStr t "finish" || containsStr t "complete" then
    .finish
  else .noMatch

/-- The phase table of spec §4.3: the fixed dispatch order with each
phase's trigger keywords. -/
def phaseTable : List (Phase × List String) :=
  [(.enableDefaults, ["start", "initialize"]),
   (.pageLoad, ["page load", "login page"]),
   (.resources, ["images", "links", "resources"]),
   (.websocket, ["websocket", "ws://"]),
   (.redirects, ["redirect", "port"]),
   (.networkConsole, ["network", "console", "error"]),
   (.curlProbe, ["curl", "header"])]

/-- First phase of the table whose keyword set matches the (lower-cased)
step text — the spec's description of dispatch. -/
def firstMatchingPhase (t : String) : Option Phase :=
  (phaseTable.find? (fun pk => pk.2.any (fun k => containsStr t k))).map (·.1)

/-- Run the dispatched action against the session state. -/
def runDispatch (w : World) (s : ServerState) (t : String) : ServerState :=
  match dispatchAction t with
  | .phase .enableDefaults =>
    let s := initBrowser s
    { s with debugContext := step1_EnableDefaultRules s.debugContext }
  | .phase .pageLoad =>
    { s with debugContext := step2_AnalyzePageLoading w.nav s.hasPage s.debugContext }
  | .phase .resources =>
    { s with debugContext := step3_AnalyzeResources w.res s.hasPage s.debugContext }
  | .phase .websocket =>
    { s with debugContext := step4_AnalyzeWebSocket w.ws s.hasPage s.debugContext }
  | .phase .redirects =>
    { s with debugContext := step5_AnalyzeRedirects s.debugContext }
  | .phase .networkConsole =>
    { s with debugContext := step6_AnalyzeNetworkAndConsole s.debugContext }
  | .phase .curlProbe =>
    { s with debugContext := step7_PerformCurlAnalysis w.curl s.debugContext }
  | .finish => closeBrowser s
  | .noMatch => s

/-- The per-step summary object of the response. -/
structure ResponseData where
  thoughtNumber : Int
  totalThoughts : Int
  nextThoughtNeeded : Bool
  currentStep : String
  deviceUrl : String
  pageLoadStatus : String
  issuesFound : Nat
  rewriteRules : Nat
  networkRequests : Nat
  consoleErrors : Nat
  brokenImages : Nat
  brokenLinks : Nat
  redirects : Nat
  deriving DecidableEq, Repr

def mkResponseData (td : ThoughtData) (ctx : DebugContext) : ResponseData :=
  { thoughtNumber := td.thoughtNumber,
    totalThoughts := td.totalThoughts,
    nextThoughtNeeded := td.nextThoughtNeeded,
    currentStep := ctx.currentStep,
    deviceUrl := ctx.deviceUrl,
    pageLoadStatus := ctx.pageLoadStatus,
    issuesFound := ctx.issues.length,
    rewriteRules := ctx.rewriteRules.length,
    networkRequests := ctx.networkRequests.length,
    consoleErrors := ctx.consoleErrors.length,
    brokenImages := ctx.brokenImages.length,
    brokenLinks := ctx.brokenLinks.length,
    redirects := ctx.redirects.length }

/-- The structured tool response: a summary (with the full report on the
terminal step), or the catch-all error payload with `isError: true`. -/
inductive Response where
  | ok (data : ResponseData) (fullReport : Option Report)
  | err (message : String)
  deriving DecidableEq, Repr

def Response.isError : Response → Bool
  | .ok _ _ => false
  | .err _ => true

/-- Source `processLegacyDeviceDebug` (lines 845-945): validate, discover
the target URL, raise total-steps to the step number, ledger the step
(and its branch), dispatch at most one phase by the keyword cascade, and
assemble the response (attaching the full report when no further step is
needed).  Any exception is caught and returned as an `err` payload with
the state as mutated up to the throw point. -/
def processStep (w : World) (s : ServerState) (input : RawInput) :
    ServerState × Response :=
  match validateThoughtData input with
  | .error msg => (s, .err msg)
  | .ok td0 =>
    match urlDiscovery s.debugContext td0.thought with
    | .error (ctx1, msg) => ({ s with debugContext := ctx1 }, .err msg)
    | .ok ctx1 =>
      let td := if td0.thoughtNumber > td0.totalThoughts then
                  { td0 with totalThoughts := td0.thoughtNumber }
                else td0
      let s1 : ServerState :=
        { s with
          debugContext := ctx1,
          thoughtHistory := s.thoughtHistory ++ [td],
          branches :=
            if jsTruthy td.branchFromThought && jsTruthy td.branchId then
              pushBranch s.branches (jsKeyString td.branchId) td
            else s.branches }
      let s2 := runDispatch w s1 (lowerStr td.thought)
      if td.nextThoughtNeeded then
        (s2, .ok (mkResponseData td s2.debugContext) none)
      else
        let pr := generateFinalReport s2
        (pr.1, .ok (mkResponseData td s2.debugContext) (some pr.2))

/-! ## Spec-side definitions (the spec's wording, for comparison) -/

/-- Spec wording of C1's malformed-step set: description missing or
non-string, step number or total-steps missing or non-numeric, "more
needed" non-boolean. -/
def specMalformedStep (i : RawInput) : Bool :=
  !jsIsString i.thought ||
  !jsIsNumber i.thoughtNumber ||
  !jsIsNumber i.totalThoughts ||
  !jsIsBoolean i.nextThoughtNeeded

/-- Amended malformed-step set: the validator also rejects the falsy
values of otherwise well-typed fields — the empty description and the
step number / total-steps value `0` (description falsy or non-string;
step number or total-steps falsy or non-numeric; "more needed"
non-boolean). -/
def malformedStepAmended (i : RawInput) : Bool :=
  (!jsTruthy i.thought || !jsIsString i.thought) ||
  (!jsTruthy i.thoughtNumber || !jsIsNumber i.thoughtNumber) ||
  (!jsTruthy i.totalThoughts || !jsIsNumber i.totalThoughts) ||
  !jsIsBoolean i.nextThoughtNeeded

def validationPasses (i : RawInput) : Bool :=
  match validateThoughtData i with
  | .ok _ => true
  | .error _ => false

/-- Spec wording of C9: the private-API markers tested against the URL's
path component only. -/
def specPrivateAPIByPath (url : String) : Bool :=
  match urlParse url with
  | some parts =>
    containsStr parts.pathname "/private-api/" ||
    containsStr parts.pathname "/api/private/" ||
    containsStr parts.pathname "/internal/" ||
    containsStr (lowerStr parts.pathname) "private"
  | none => false

/-- The target-URL discovery of a submission does not throw: either the
step text has no URL token, a target is already set, or the extracted
token parses. -/
def urlDiscoveryOk (ctx : DebugContext) (thought : String) : Bool :=
  match extractUrl thought with
  | some u => if ctx.deviceUrl = "" then (urlParse u).isSome else true
  | none => true

/-! ## Helper lemmas -/

theorem containsStr_trans {s a b : String} (h1 : containsStr s a = true)
    (h2 : containsStr a b = true) : containsStr s b = true := by
  unfold containsStr at *
  exact decide_eq_true ((of_decide_eq_true h2).trans (of_decide_eq_true h1))

theorem containsStr_lower {s n : String}
    (hn : n.data.map Char.toLower = n.data)
    (h : containsStr s n = true) : containsStr (lowerStr s) n = true := by
  unfold containsStr at *
  unfold lowerStr
  have := List.IsInfix.map Char.toLower (of_decide_eq_true h)
  rw [hn] at this
  exact decide_eq_true this

theorem private_api_iff (url : String) :
    isPrivateAPICall url = true ↔
    (containsStr url "/internal/" = true ∨
     containsStr (lowerStr url) "private" = true) := by
  simp only [isPrivateAPICall, Bool.or_eq_true]
  constructor
  · rintro (((h | h) | h) | h)
    · exact Or.inr (containsStr_trans (containsStr_lower (by decide) h) (by decide))
    · exact Or.inr (containsStr_trans (containsStr_lower (by decide) h) (by decide))
    · exact Or.inl h
    · exact Or.inr h
  · rintro (h | h)
    · exact Or.inl (Or.inr h)
    · exact Or.inr h

/-! ## Claim C9 -/

/-- C9, counterexample: `isPrivateAPICall` tests the whole URL string,
not the URL's path.  For `http://private.example.com/home` the path is
`/home` and carries no marker, yet the classifier returns true because
the hostname contains `private`. -/
theorem c9_private_api_path_counterexample :
    isPrivateAPICall "http://private.example.com/home" = true ∧
    specPrivateAPIByPath "http://private.example.com/home" = false ∧
    urlParse "http://private.example.com/home" =
      some { hostname := "private.example.com", pathname := "/home" } := by
  refine ⟨by decide, by decide, by decide⟩

/-- C9, amended: for every URL, the "is private API" classification is
true iff the URL **string** (not merely its path) contains
`/private-api/`, `/api/private/`, `/internal/`, or the case-insensitive
substring `private`; the first two markers are subsumed by the last, so
this is equivalently `/internal/` or case-insensitive `private`. -/
theorem c9_private_api_marker_characterization (url : String) :
    isPrivateAPICall url =
      (containsStr url "/private-api/" || containsStr url "/api/private/" ||
       containsStr url "/internal/" || containsStr (lowerStr url) "private") ∧
    isPrivateAPICall url =
      (containsStr url "/internal/" || containsStr (lowerStr url) "private") := by
  constructor
  · rfl
  · have h := private_api_iff url
    cases hl : (containsStr url "/internal/" || containsStr (lowerStr url) "private") with
    | true =>
      have := h.mpr (by simpa [Bool.or_eq_true] using hl)
      simp [this]
    | false =>
      cases hp : isPrivateAPICall url with
      | true =>
        have := h.mp hp
        simp [Bool.or_eq_true] at hl
        rcases this with h1 | h1 <;> simp [h1] at hl
      | false => rfl

/-! ## Claim C10 -/

/-- C10: the device-targeting classifier fails closed.  It is a total
boolean function by construction (the source's try/catch is the `none`
fall-through of `urlParse`); it returns false whenever no target URL has
been set or the input fails URL parsing; and while no target is set,
every network observation recorded by the request handler has
`isDeviceIP = false`, private-range hostnames included. -/
theorem c10_device_classifier_fails_closed :
    (∀ deviceUrl url : String,
      (deviceUrl = "" → isDeviceIPOrHostname deviceUrl url = false) ∧
      (urlParse url = none → isDeviceIPOrHostname deviceUrl url = false)) ∧
    (∀ (ctx : DebugContext) (url method : String)
       (hs : List (String × String)),
      ctx.deviceUrl = "" →
      ∀ r ∈ (recordRequest ctx url method hs).networkRequests,
        r ∈ ctx.networkRequests ∨ r.isDeviceIP = false) := by
  constructor
  · intro deviceUrl url
    constructor
    · intro h
      simp [isDeviceIPOrHostname, h]
    · intro h
      unfold isDeviceIPOrHostname
      split
      · rfl
      · rw [h]
    -- no third goal
  · intro ctx url method hs h r hr
    simp only [recordRequest, List.mem_append, List.mem_singleton] at hr
    rcases hr with hr | hr
    · exact Or.inl hr
    · right
      subst hr
      simp [isDeviceIPOrHostname, h]

/-- C10 witness: with no target set, a request to a private-range IP is
still classified `isDeviceIP = false`. -/
theorem c10_device_classifier_fails_closed_witness :
    isDeviceIPOrHostname "" "http://192.168.1.50/a" = false := by
  exact (c10_device_classifier_fails_closed.1 "" "http://192.168.1.50/a").1 rfl

/-! ## Claim C1 -/

theorem validate_eq_not_malformed (i : RawInput) :
    validationPasses i = !malformedStepAmended i := by
  unfold validationPasses validateThoughtData malformedStepAmended
  by_cases h1 : (!jsTruthy i.thought || !jsIsString i.thought) = true
  · simp [h1]
  · simp only [Bool.not_eq_true] at h1
    by_cases h2 : (!jsTruthy i.thoughtNumber || !jsIsNumber i.thoughtNumber) = true
    · simp [h1, h2]
    · simp only [Bool.not_eq_true] at h2
      by_cases h3 : (!jsTruthy i.totalThoughts || !jsIsNumber i.totalThoughts) = true
      · simp [h1, h2, h3]
      · simp only [Bool.not_eq_true] at h3
        by_cases h4 : (!jsIsBoolean i.nextThoughtNeeded) = true
        · simp [h1, h2, h3, h4]
        · simp only [Bool.not_eq_true] at h4
          simp [h1, h2, h3, h4]

/-- A step the validator rejects with `thoughtNumber = 0`: present and
numeric (so not malformed under the claim's definition), yet falsy. -/
def zeroStepInput : RawInput :=
  { thought := .str "step", thoughtNumber := .num 0,
    totalThoughts := .num 3, nextThoughtNeeded := .bool true }

/-- C1, counterexample: a step with a non-empty string description,
numeric step number `0`, numeric total-steps and boolean "more needed"
is not malformed in the claim's sense, yet `submit` rejects it with an
`isError` payload (`!data.thoughtNumber` is true for the falsy `0`). -/
theorem c1_rejects_wellformed_counterexample :
    specMalformedStep zeroStepInput = false ∧
    (processStep emptyWorld initialState zeroStepInput).2.isError = true ∧
    (processStep emptyWorld initialState zeroStepInput).2 =
      .err "Invalid thoughtNumber: must be a number" := by
  refine ⟨by decide, by decide, by decide⟩

/-- C1, amended: `submit`'s validation rejects a step exactly when its
description is missing, non-string or empty, its step number or
total-steps is missing, non-numeric or zero, or "more needed" is
non-boolean; every validation rejection is returned as a structured
error payload with `isError` set (never a thrown exception across the
boundary), leaving the Thought Ledger and all other session state
unchanged. -/
theorem c1_validation_rejects_amended (w : World) (s : ServerState)
    (i : RawInput) :
    validationPasses i = !malformedStepAmended i ∧
    (malformedStepAmended i = true →
      (processStep w s i).2.isError = true ∧ (processStep w s i).1 = s) := by
  refine ⟨validate_eq_not_malformed i, ?_⟩
  intro h
  cases hval : validateThoughtData i with
  | error msg => simp [processStep, hval, Response.isError]
  | ok td =>
    exfalso
    have hv := validate_eq_not_malformed i
    rw [h] at hv
    unfold validationPasses at hv
    rw [hval] at hv
    simp at hv

/-- C1 witness: the malformed step missing `thought` (spec Scenario E)
is rejected as a structured error and the ledger (indeed the whole
state) is unchanged. -/
theorem c1_validation_rejects_amended_witness :
    malformedStepAmended { thoughtNumber := .num 1, totalThoughts := .num 2,
                           nextThoughtNeeded := .bool true } = true ∧
    (processStep emptyWorld initialState
      { thoughtNumber := .num 1, totalThoughts := .num 2,
        nextThoughtNeeded := .bool true }).2.isError = true ∧
    (processStep emptyWorld initialState
      { thoughtNumber := .num 1, totalThoughts := .num 2,
        nextThoughtNeeded := .bool true }).1 = initialState := by
  refine ⟨by decide, ?_, ?_⟩
  · exact ((c1_validation_rejects_amended emptyWorld initialState _).2 (by decide)).1
  · exact ((c1_validation_rejects_amended emptyWorld initialState _).2 (by decide)).2

/-! ## Claim C4 -/

/-- C4: the "enable defaults" phase is idempotent.  With the guard flag
clear, it appends exactly the four baseline rules, at priorities 1–4, to
the Rule Catalog (and sets the guard); with the guard set it is the
identity on the context; hence running it twice equals running it
once. -/
theorem c4_enable_defaults_idempotent (ctx : DebugContext) :
    (ctx.defaultRulesEnabled = false →
      (step1_EnableDefaultRules ctx).rewriteRules =
        ctx.rewriteRules ++ defaultRulesList ∧
      (step1_EnableDefaultRules ctx).defaultRulesEnabled = true) ∧
    defaultRulesList.length = 4 ∧
    defaultRulesList.map (·.priority) = [1, 2, 3, 4] ∧
    (ctx.defaultRulesEnabled = true → step1_EnableDefaultRules ctx = ctx) ∧
    step1_EnableDefaultRules (step1_EnableDefaultRules ctx) =
      step1_EnableDefaultRules ctx := by
  refine ⟨?_, by decide, by decide, ?_, ?_⟩
  · intro h
    simp [step1_EnableDefaultRules, h]
  · intro h
    simp [step1_EnableDefaultRules, h]
  · cases h : ctx.defaultRulesEnabled with
    | true => simp [step1_EnableDefaultRules, h]
    | false =>
      have h1 : (step1_EnableDefaultRules ctx).defaultRulesEnabled = true := by
        simp [step1_EnableDefaultRules, h]
      conv_lhs => rw [step1_EnableDefaultRules]
      simp [h1]

/-- C4 witness: on the fresh context the first invocation appends the
four baseline rules and the second invocation changes nothing. -/
theorem c4_enable_defaults_idempotent_witness :
    (step1_EnableDefaultRules ({} : DebugContext)).rewriteRules =
      defaultRulesList ∧
    step1_EnableDefaultRules (step1_EnableDefaultRules ({} : DebugContext)) =
      step1_EnableDefaultRules ({} : DebugContext) := by
  constructor
  · have h := ((c4_enable_defaults_idempotent ({} : DebugContext)).1 rfl).1
    simpa using h
  · exact (c4_enable_defaults_idempotent ({} : DebugContext)).2.2.2.2

/-! ## Sorting lemmas (for C6 and C7) -/

theorem insertRule_length (x : RewriteRule) (l : List RewriteRule) :
    (insertRule x l).length = l.length + 1 := by
  induction l with
  | nil => rfl
  | cons y ys ih =>
    unfold insertRule
    split
    · simp [ih]
    · simp

theorem sortRules_length (l : List RewriteRule) :
    (sortRulesByPriority l).length = l.length := by
  induction l with
  | nil => rfl
  | cons x xs ih =>
    unfold sortRulesByPriority
    rw [insertRule_length, ih]
    rfl

def ruleLE (a b : RewriteRule) : Prop := a.priority ≤ b.priority

theorem mem_insertRule {z x : RewriteRule} {l : List RewriteRule}
    (h : z ∈ insertRule x l) : z = x ∨ z ∈ l := by
  induction l with
  | nil => simpa [insertRule] using h
  | cons y ys ih =>
    unfold insertRule at h
    split at h
    · rcases List.mem_cons.mp h with h | h
      · exact Or.inr (List.mem_cons.mpr (Or.inl h))
      · rcases ih h with h | h
        · exact Or.inl h
        · exact Or.inr (List.mem_cons.mpr (Or.inr h))
    · rcases List.mem_cons.mp h with h | h
      · exact Or.inl h
      · exact Or.inr h

theorem insertRule_pairwise {x : RewriteRule} {l : List RewriteRule}
    (h : List.Pairwise ruleLE l) :
    List.Pairwise ruleLE (insertRule x l) := by
  induction l with
  | nil => simp [insertRule, List.pairwise_singleton]
  | cons y ys ih =>
    rw [List.pairwise_cons] at h
    unfold insertRule
    split
    · rename_i hlt
      rw [List.pairwise_cons]
      constructor
      · intro z hz
        rcases mem_insertRule hz with hz' | hz'
        · subst hz'
          exact le_of_lt hlt
        · exact h.1 z hz'
      · exact ih h.2
    · rename_i hnlt
      have hxy : ruleLE x y := le_of_not_lt hnlt
      rw [List.pairwise_cons]
      constructor
      · intro z hz
        rcases List.mem_cons.mp hz with hz | hz
        · subst hz; exact hxy
        · exact le_trans hxy (h.1 z hz)
      · exact List.pairwise_cons.mpr h

theorem sortRules_pairwise (l : List RewriteRule) :
    List.Pairwise ruleLE (sortRulesByPriority l) := by
  induction l with
  | nil => exact List.Pairwise.nil
  | cons x xs ih => exact insertRule_pairwise ih

theorem filter_insertRule (p : Int) (x : RewriteRule) (l : List RewriteRule) :
    (insertRule x l).filter (fun r => decide (r.priority = p)) =
      if x.priority = p then
        x :: l.filter (fun r => decide (r.priority = p))
      else l.filter (fun r => decide (r.priority = p)) := by
  induction l with
  | nil =>
    simp only [insertRule, List.filter]
    by_cases hx : x.priority = p <;> simp [hx]
  | cons y ys ih =>
    unfold insertRule
    split
    · rename_i hlt
      by_cases hx : x.priority = p
      · have hy : ¬ (y.priority = p) := by omega
        simp [hx, hy, List.filter_cons, ih]
      · simp [hx, List.filter_cons, ih]
    · by_cases hx : x.priority = p <;> simp [hx, List.filter_cons]

/-- Stability of the priority sort: the subsequence of rules at any
given priority is exactly the corresponding subsequence of the input,
in its original (insertion) order. -/
theorem sortRules_filter (p : Int) (l : List RewriteRule) :
    (sortRulesByPriority l).filter (fun r => decide (r.priority = p)) =
      l.filter (fun r => decide (r.priority = p)) := by
  induction l with
  | nil => rfl
  | cons x xs ih =>
    unfold sortRulesByPriority
    rw [filter_insertRule]
    by_cases hx : x.priority = p <;> simp [hx, List.filter_cons, ih]

theorem insertRule_of_pairwise {x : RewriteRule} {l : List RewriteRule}
    (h : List.Pairwise ruleLE (x :: l)) : insertRule x l = x :: l := by
  cases l with
  | nil => rfl
  | cons y ys =>
    have hxy : ruleLE x y := (List.pairwise_cons.mp h).1 y (List.mem_cons_self y ys)
    unfold insertRule
    rw [if_neg (not_lt_of_le hxy)]

theorem sortRules_of_pairwise {l : List RewriteRule}
    (h : List.Pairwise ruleLE l) : sortRulesByPriority l = l := by
  induction l with
  | nil => rfl
  | cons x xs ih =>
    unfold sortRulesByPriority
    rw [ih (List.pairwise_cons.mp h).2]
    exact insertRule_of_pairwise h

theorem sortRules_idem (l : List RewriteRule) :
    sortRulesByPriority (sortRulesByPriority l) = sortRulesByPriority l :=
  sortRules_of_pairwise (sortRules_pairwise l)

/-! ## Claim C6 -/

/-- C6: the report's rule list is the Rule Catalog sorted by ascending
priority with a stable sort — the sorted list is pairwise ordered by
priority, rules of any equal priority keep their insertion order (the
per-priority subsequences coincide with the catalog's), the report's
rule partitions are the by-kind filters of that sorted list, and the
report's `totalRules` counts (in the rules section and the summary)
equal the catalog's length. -/
theorem c6_report_rule_sort_stable (st : ServerState) :
    List.Pairwise ruleLE (sortRulesByPriority st.debugContext.rewriteRules) ∧
    (∀ p : Int,
      (sortRulesByPriority st.debugContext.rewriteRules).filter
          (fun r => decide (r.priority = p)) =
        st.debugContext.rewriteRules.filter (fun r => decide (r.priority = p))) ∧
    (sortRulesByPriority st.debugContext.rewriteRules).length =
      st.debugContext.rewriteRules.length ∧
    (generateFinalReport st).2.rewriteRulesForRAPortal.defaultRules =
      (sortRulesByPriority st.debugContext.rewriteRules).filter
        (fun r => r.type = RuleType.default) ∧
    (generateFinalReport st).2.rewriteRulesForRAPortal.headerRewrites =
      (sortRulesByPriority st.debugContext.rewriteRules).filter
        (fun r => r.type = RuleType.header) ∧
    (generateFinalReport st).2.rewriteRulesForRAPortal.bodyRewrites =
      (sortRulesByPriority st.debugContext.rewriteRules).filter
        (fun r => r.type = RuleType.body) ∧
    (generateFinalReport st).2.rewriteRulesForRAPortal.totalRules =
      st.debugContext.rewriteRules.length ∧
    (generateFinalReport st).2.summary.totalRules =
      st.debugContext.rewriteRules.length := by
  refine ⟨sortRules_pairwise _, fun p => sortRules_filter p _,
          sortRules_length _, rfl, rfl, rfl, ?_, ?_⟩
  · show (sortRulesByPriority st.debugContext.rewriteRules).length = _
    exact sortRules_length _
  · show (sortRulesByPriority st.debugContext.rewriteRules).length = _
    exact sortRules_length _

/-! ## Claim C7 -/

def rulePr5 : RewriteRule :=
  { type := .body, action := .add, description := "late low-priority rule",
    priority := 5 }

def rulePr1 : RewriteRule :=
  { type := .header, action := .add, description := "early high-priority rule",
    priority := 1 }

def unsortedState : ServerState :=
  { debugContext := { rewriteRules := [rulePr5, rulePr1] } }

/-- C7, counterexample: report generation is *not* read-only on the
Diagnostic Context.  `generateFinalReport` sorts
`this.debugContext.rewriteRules` in place, so on a catalog stored out of
priority order the context after the call differs from the context
before it — the stored order has changed. -/
theorem c7_report_mutates_catalog_counterexample :
    unsortedState.debugContext.rewriteRules = [rulePr5, rulePr1] ∧
    (generateFinalReport unsortedState).1.debugContext.rewriteRules =
      [rulePr1, rulePr5] ∧
    (generateFinalReport unsortedState).1 ≠ unsortedState := by
  refine ⟨by decide, by decide, by decide⟩

/-- C7, amended: report generation is deterministic and read-only
*except* that it re-orders the stored Rule Catalog in place into stable
priority order; every other part of the state is unchanged, and a second
call on the resulting state returns the same report and leaves the state
fixed (the in-place sort is idempotent). -/
theorem c7_report_deterministic_sorts_in_place (st : ServerState) :
    (generateFinalReport st).1 =
      { st with debugContext :=
          { st.debugContext with
            rewriteRules := sortRulesByPriority st.debugContext.rewriteRules } } ∧
    (generateFinalReport ((generateFinalReport st).1)).2 =
      (generateFinalReport st).2 ∧
    (generateFinalReport ((generateFinalReport st).1)).1 =
      (generateFinalReport st).1 := by
  refine ⟨rfl, ?_, ?_⟩
  · simp [generateFinalReport, sortRules_idem]
  · simp [generateFinalReport, sortRules_idem]

/-! ## Claim C8 -/

theorem netErrorRuleFor_priority (req : NetworkRequest) :
    (netErrorRuleFor req).priority = 50 := by
  unfold netErrorRuleFor
  split <;> rfl

theorem netRules_priority {r : RewriteRule} {errs : List NetworkRequest}
    (h : r ∈ netRules errs) : r.priority = 50 := by
  unfold netRules at h
  split at h
  · rcases mem_concatAll.mp h with ⟨e, _, he⟩
    unfold netErrorRulesFor at he
    split at he
    · rw [List.mem_singleton] at he
      subst he
      exact netErrorRuleFor_priority e
    · cases he
  · cases h

theorem mimeRules_priority {r : RewriteRule} {mes : List ConsoleError}
    (h : r ∈ mimeRules mes) : r.priority = 60 ∨ r.priority = 61 := by
  unfold mimeRules at h
  split at h
  · simp only [List.mem_cons, List.not_mem_nil, or_false] at h
    rcases h with h | h
    · subst h; exact Or.inl rfl
    · subst h; exact Or.inr rfl
  · cases h

theorem privateRules_priority {r : RewriteRule} {cs : List NetworkRequest}
    (h : r ∈ privateRules cs) : r.priority = 75 := by
  unfold privateRules at h
  split at h
  · rcases List.mem_map.mp h with ⟨c, _, hc⟩
    subst hc
    rfl
  · cases h

/-- A console observation carrying the bootstrap-script signature
(spec Scenario C). -/
def bootErr : ConsoleError :=
  { type := "error", message := "Bootstrap.js: Mixed Content blocked https",
    isMimeType := false, isBootstrapJS := true }

def bootCtx : DebugContext := { consoleErrors := [bootErr] }

/-- C8, counterexample: on a context whose only observation is one
bootstrap-flagged console error, the network/console phase appends
exactly one rule (the `https`→`spdy` body rule) but **four** issue-log
entries (the BOOTSTRAP.JS ISSUE and ROOT CAUSE diagnostics plus the NOTE
and ALTERNATIVE advisories), not two. -/
theorem c8_bootstrap_issue_count_counterexample :
    (step6_AnalyzeNetworkAndConsole bootCtx).rewriteRules = [bootstrapRule] ∧
    (step6_AnalyzeNetworkAndConsole bootCtx).issues.length = 4 ∧
    ¬ ((step6_AnalyzeNetworkAndConsole bootCtx).issues.length = 2) := by
  refine ⟨by decide, by decide, by decide⟩

/-- C8, amended: when the network/console phase runs on a context whose
console errors include at least one observation flagged
`isBootstrapJS = true`, it appends exactly one body rule with pattern
`https`, replacement `spdy`, path `bootstrap.js`, priority 70 (every
other rule the phase appends has a priority other than 70), plus **four**
issue-log entries for the bootstrap signature: two diagnostics and two
advisories. -/
theorem c8_bootstrap_signature_effects (ctx : DebugContext)
    (h : 0 < (ctx.consoleErrors.filter (·.isBootstrapJS)).length) :
    ∃ preI postI preR postR,
      (step6_AnalyzeNetworkAndConsole ctx).issues =
        ctx.issues ++ preI ++
          [bootstrapIssue1, bootstrapIssue2, bootstrapIssue3, bootstrapIssue4]
          ++ postI ∧
      (step6_AnalyzeNetworkAndConsole ctx).rewriteRules =
        ctx.rewriteRules ++ preR ++ [bootstrapRule] ++ postR ∧
      (∀ r ∈ preR, r.priority ≠ 70) ∧
      (∀ r ∈ postR, r.priority ≠ 70) ∧
      bootstrapRule.type = RuleType.body ∧
      bootstrapRule.pattern = some "https" ∧
      bootstrapRule.replacement = some "spdy" ∧
      bootstrapRule.path = some "bootstrap.js" ∧
      bootstrapRule.priority = 70 := by
  refine ⟨netIssues (ctx.networkRequests.filter isNetworkError) ++
            mimeIssues (ctx.consoleErrors.filter (·.isMimeType)),
          privateIssues (ctx.networkRequests.filter (·.isPrivateAPI)) ++
            concatAll consolePatternIssuesFor ctx.consoleErrors,
          netRules (ctx.networkRequests.filter isNetworkError) ++
            mimeRules (ctx.consoleErrors.filter (·.isMimeType)),
          privateRules (ctx.networkRequests.filter (·.isPrivateAPI)),
          ?_, ?_, ?_, ?_, rfl, rfl, rfl, rfl, rfl⟩
  · simp [step6_AnalyzeNetworkAndConsole, bootstrapIssues, h]
  · simp [step6_AnalyzeNetworkAndConsole, bootstrapRules, h]
  · intro r hr
    rcases List.mem_append.mp hr with hr | hr
    · rw [netRules_priority hr]
      decide
    · rcases mimeRules_priority hr with h60 | h61
      · rw [h60]; decide
      · rw [h61]; decide
  · intro r hr
    rw [privateRules_priority hr]
    decide

/-- C8 witness: the amended statement instantiated on the concrete
one-bootstrap-error context. -/
theorem c8_bootstrap_signature_effects_witness :
    0 < (bootCtx.consoleErrors.filter (·.isBootstrapJS)).length ∧
    ∃ preI postI preR postR,
      (step6_AnalyzeNetworkAndConsole bootCtx).issues =
        bootCtx.issues ++ preI ++
          [bootstrapIssue1, bootstrapIssue2, bootstrapIssue3, bootstrapIssue4]
          ++ postI ∧
      (step6_AnalyzeNetworkAndConsole bootCtx).rewriteRules =
        bootCtx.rewriteRules ++ preR ++ [bootstrapRule] ++ postR ∧
      (∀ r ∈ preR, r.priority ≠ 70) ∧
      (∀ r ∈ postR, r.priority ≠ 70) ∧
      bootstrapRule.type = RuleType.body ∧
      bootstrapRule.pattern = some "https" ∧
      bootstrapRule.replacement = some "spdy" ∧
      bootstrapRule.path = some "bootstrap.js" ∧
      bootstrapRule.priority = 70 :=
  ⟨by decide, c8_bootstrap_signature_effects bootCtx (by decide)⟩

/-! ## Preservation lemmas for the dispatcher -/

theorem step1_device (ctx : DebugContext) :
    (step1_EnableDefaultRules ctx).deviceUrl = ctx.deviceUrl ∧
    (step1_EnableDefaultRules ctx).deviceIP = ctx.deviceIP ∧
    (step1_EnableDefaultRules ctx).deviceHostname = ctx.deviceHostname := by
  unfold step1_EnableDefaultRules
  split <;> exact ⟨rfl, rfl, rfl⟩

theorem step2_device (nav : NavOutcome) (hp : Bool) (ctx : DebugContext) :
    (step2_AnalyzePageLoading nav hp ctx).deviceUrl = ctx.deviceUrl ∧
    (step2_AnalyzePageLoading nav hp ctx).deviceIP = ctx.deviceIP ∧
    (step2_AnalyzePageLoading nav hp ctx).deviceHostname = ctx.deviceHostname := by
  unfold step2_AnalyzePageLoading
  split <;> exact ⟨rfl, rfl, rfl⟩

theorem step3_device (res : ResOutcome) (hp : Bool) (ctx : DebugContext) :
    (step3_AnalyzeResources res hp ctx).deviceUrl = ctx.deviceUrl ∧
    (step3_AnalyzeResources res hp ctx).deviceIP = ctx.deviceIP ∧
    (step3_AnalyzeResources res hp ctx).deviceHostname = ctx.deviceHostname := by
  unfold step3_AnalyzeResources
  split
  · exact ⟨rfl, rfl, rfl⟩
  · cases res <;> exact ⟨rfl, rfl, rfl⟩

theorem step4_device (ws : WsOutcome) (hp : Bool) (ctx : DebugContext) :
    (step4_AnalyzeWebSocket ws hp ctx).deviceUrl = ctx.deviceUrl ∧
    (step4_AnalyzeWebSocket ws hp ctx).deviceIP = ctx.deviceIP ∧
    (step4_AnalyzeWebSocket ws hp ctx).deviceHostname = ctx.deviceHostname := by
  unfold step4_AnalyzeWebSocket
  split <;> exact ⟨rfl, rfl, rfl⟩

theorem step5_device (ctx : DebugContext) :
    (step5_AnalyzeRedirects ctx).deviceUrl = ctx.deviceUrl ∧
    (step5_AnalyzeRedirects ctx).deviceIP = ctx.deviceIP ∧
    (step5_AnalyzeRedirects ctx).deviceHostname = ctx.deviceHostname :=
  ⟨rfl, rfl, rfl⟩

theorem step6_device (ctx : DebugContext) :
    (step6_AnalyzeNetworkAndConsole ctx).deviceUrl = ctx.deviceUrl ∧
    (step6_AnalyzeNetworkAndConsole ctx).deviceIP = ctx.deviceIP ∧
    (step6_AnalyzeNetworkAndConsole ctx).deviceHostname = ctx.deviceHostname :=
  ⟨rfl, rfl, rfl⟩

theorem step7_device (curl : CurlOutcome) (ctx : DebugContext) :
    (step7_PerformCurlAnalysis curl ctx).deviceUrl = ctx.deviceUrl ∧
    (step7_PerformCurlAnalysis curl ctx).deviceIP = ctx.deviceIP ∧
    (step7_PerformCurlAnalysis curl ctx).deviceHostname = ctx.deviceHostname := by
  unfold step7_PerformCurlAnalysis
  cases curl <;> exact ⟨rfl, rfl, rfl⟩

theorem runDispatch_device (w : World) (s : ServerState) (t : String) :
    (runDispatch w s t).debugContext.deviceUrl = s.debugContext.deviceUrl ∧
    (runDispatch w s t).debugContext.deviceIP = s.debugContext.deviceIP ∧
    (runDispatch w s t).debugContext.deviceHostname =
      s.debugContext.deviceHostname := by
  unfold runDispatch
  split
  · exact step1_device s.debugContext
  · exact step2_device w.nav s.hasPage s.debugContext
  · exact step3_device w.res s.hasPage s.debugContext
  · exact step4_device w.ws s.hasPage s.debugContext
  · exact step5_device s.debugContext
  · exact step6_device s.debugContext
  · exact step7_device w.curl s.debugContext
  · exact ⟨rfl, rfl, rfl⟩
  · exact ⟨rfl, rfl, rfl⟩

theorem runDispatch_history (w : World) (s : ServerState) (t : String) :
    (runDispatch w s t).thoughtHistory = s.thoughtHistory := by
  unfold runDispatch
  split <;> rfl

theorem urlDiscovery_of_nonempty (ctx : DebugContext) (thought : String)
    (h : ctx.deviceUrl ≠ "") :
    urlDiscovery ctx thought = .ok ctx := by
  unfold urlDiscovery
  cases hx : extractUrl thought with
  | none => rfl
  | some u => simp [h]

theorem urlDiscovery_ok_exists (ctx : DebugContext) (thought : String)
    (h : urlDiscoveryOk ctx thought = true) :
    ∃ ctx1, urlDiscovery ctx thought = .ok ctx1 := by
  unfold urlDiscoveryOk at h
  unfold urlDiscovery
  cases hx : extractUrl thought with
  | none => exact ⟨ctx, rfl⟩
  | some u =>
    rw [hx] at h
    by_cases hd : ctx.deviceUrl = ""
    · cases hp : urlParse u with
      | none =>
        exfalso
        simp [hd, hp] at h
      | some parts =>
        refine ⟨{ ctx with deviceUrl := u, deviceIP := parts.hostname, deviceHostname := parts.hostname }, ?_⟩
        simp [hd, hp]
    · refine ⟨ctx, ?_⟩
      simp [hd]

theorem processStep_fst_device (w : World) (s : ServerState) (i : RawInput)
    (td : ThoughtData) (ctx1 : DebugContext)
    (hval : validateThoughtData i = .ok td)
    (hu : urlDiscovery s.debugContext td.thought = .ok ctx1) :
    (processStep w s i).1.debugContext.deviceUrl = ctx1.deviceUrl ∧
    (processStep w s i).1.debugContext.deviceIP = ctx1.deviceIP ∧
    (processStep w s i).1.debugContext.deviceHostname = ctx1.deviceHostname := by
  unfold processStep
  rw [hval]
  dsimp only
  rw [hu]
  dsimp only
  split <;> split <;> exact runDispatch_device w _ _

theorem processStep_fst_device_err (w : World) (s : ServerState)
    (i : RawInput) (td : ThoughtData) (ctx1 : DebugContext) (msg : String)
    (hval : validateThoughtData i = .ok td)
    (hu : urlDiscovery s.debugContext td.thought = .error (ctx1, msg)) :
    (processStep w s i).1 = { s with debugContext := ctx1 } := by
  unfold processStep
  rw [hval]
  dsimp only
  rw [hu]

/-! ## Claim C2 -/

/-- C2: the target URL is set from the first submitted step whose text
contains an `http(s)://` token and is immutable thereafter.  First
conjunct: once `deviceUrl` is non-empty, submitting any step (with any
URL in its text) leaves `deviceUrl` and the derived `deviceIP` /
`deviceHostname` unchanged.  Second conjunct: while no target is set, a
valid step whose text matches the URL regex sets `deviceUrl` to the
extracted token, and the derived IP/hostname to its parsed hostname when
parsing succeeds. -/
theorem c2_target_url_immutable (w : World) (s : ServerState) (i : RawInput) :
    (s.debugContext.deviceUrl ≠ "" →
      (processStep w s i).1.debugContext.deviceUrl = s.debugContext.deviceUrl ∧
      (processStep w s i).1.debugContext.deviceIP = s.debugContext.deviceIP ∧
      (processStep w s i).1.debugContext.deviceHostname =
        s.debugContext.deviceHostname) ∧
    (∀ td u, s.debugContext.deviceUrl = "" →
      validateThoughtData i = .ok td →
      extractUrl td.thought = some u →
      ((processStep w s i).1.debugContext.deviceUrl = u ∧
       ∀ parts, urlParse u = some parts →
         (processStep w s i).1.debugContext.deviceIP = parts.hostname ∧
         (processStep w s i).1.debugContext.deviceHostname = parts.hostname)) := by
  constructor
  · intro hne
    cases hval : validateThoughtData i with
    | error m =>
      unfold processStep
      rw [hval]
      exact ⟨rfl, rfl, rfl⟩
    | ok td =>
      exact processStep_fst_device w s i td s.debugContext hval
        (urlDiscovery_of_nonempty s.debugContext td.thought hne)
  · intro td u hd hval hx
    cases hp : urlParse u with
    | some parts =>
      have hu : urlDiscovery s.debugContext td.thought =
          .ok { s.debugContext with deviceUrl := u, deviceIP := parts.hostname, deviceHostname := parts.hostname } := by
        unfold urlDiscovery
        rw [hx]
        simp [hd, hp]
      have h3 := processStep_fst_device w s i td _ hval hu
      refine ⟨h3.1, ?_⟩
      intro parts2 hp2
      injection hp2 with e
      subst e
      exact ⟨h3.2.1, h3.2.2⟩
    | none =>
      have hu : urlDiscovery s.debugContext td.thought =
          .error ({ s.debugContext with deviceUrl := u }, "TypeError: Invalid URL") := by
        unfold urlDiscovery
        rw [hx]
        simp [hd, hp]
      have h1 := processStep_fst_device_err w s i td _ _ hval hu
      constructor
      · rw [h1]
      · intro parts2 hp2
        cases hp2

/-- C2 witness: with the target already set to `http://dev1`, submitting
a step that contains a different URL leaves the target identity
unchanged. -/
theorem c2_target_url_immutable_witness :
    ({ debugContext := { deviceUrl := "http://dev1", deviceIP := "dev1",
                         deviceHostname := "dev1" } } : ServerState).debugContext.deviceUrl ≠ "" ∧
    (processStep emptyWorld
      ({ debugContext := { deviceUrl := "http://dev1", deviceIP := "dev1",
                           deviceHostname := "dev1" } } : ServerState)
      { thought := .str "look at http://other-device/ too",
        thoughtNumber := .num 2, totalThoughts := .num 3,
        nextThoughtNeeded := .bool true }).1.debugContext.deviceUrl =
      "http://dev1" := by
  refine ⟨by decide, ?_⟩
  exact ((c2_target_url_immutable emptyWorld
    ({ debugContext := { deviceUrl := "http://dev1", deviceIP := "dev1",
                         deviceHostname := "dev1" } } : ServerState)
    { thought := .str "look at http://other-device/ too",
      thoughtNumber := .num 2, totalThoughts := .num 3,
      nextThoughtNeeded := .bool true }).1 (by decide)).1

/-! ## Claim C3 -/

theorem runDispatch_thoughtHistory (w : World) (s : ServerState) (t : String) :
    (runDispatch w s t).thoughtHistory = s.thoughtHistory :=
  runDispatch_history w s t

/-- C3: phase dispatch is mutually exclusive per step.  `runDispatch`
executes the single action selected by `dispatchAction`, and for every
step text that action's phase is exactly the first phase in the fixed
table order whose keyword set matches (first conjunct); in particular a
step text containing both "websocket" and "curl" (and no earlier-phase
keyword) triggers exactly the WebSocket phase (second conjunct); and a
valid step matching no phase is still ledgered (third conjunct). -/
theorem c3_dispatch_first_match_exclusive (w : World) (s : ServerState)
    (i : RawInput) :
    (∀ t : String, (dispatchAction t).phaseOf = firstMatchingPhase t) ∧
    dispatchAction (lowerStr "Check WebSocket vs curl") = .phase .websocket ∧
    (∀ td, validateThoughtData i = .ok td →
      urlDiscoveryOk s.debugContext td.thought = true →
      firstMatchingPhase (lowerStr td.thought) = none →
      (processStep w s i).1.thoughtHistory =
        s.thoughtHistory ++
          [if td.thoughtNumber > td.totalThoughts then
             { td with totalThoughts := td.thoughtNumber } else td]) := by
  refine ⟨?_, by decide, ?_⟩
  · intro t
    unfold dispatchAction firstMatchingPhase phaseTable
    simp only [List.find?, List.any_cons, List.any_nil, Bool.or_false]
    by_cases h1 : (containsStr t "start" || containsStr t "initialize") = true
    · simp [Bool.or_assoc, h1, DispatchAction.phaseOf]
    · rw [Bool.not_eq_true] at h1
      by_cases h2 : (containsStr t "page load" || containsStr t "login page") = true
      · simp [Bool.or_assoc, h1, h2, DispatchAction.phaseOf]
      · rw [Bool.not_eq_true] at h2
        by_cases h3 : (containsStr t "images" || (containsStr t "links" || containsStr t "resources")) = true
        · simp [Bool.or_assoc, h1, h2, h3, DispatchAction.phaseOf]
        · rw [Bool.not_eq_true] at h3
          by_cases h4 : (containsStr t "websocket" || containsStr t "ws://") = true
          · simp [Bool.or_assoc, h1, h2, h3, h4, DispatchAction.phaseOf]
          · rw [Bool.not_eq_true] at h4
            by_cases h5 : (containsStr t "redirect" || containsStr t "port") = true
            · simp [Bool.or_assoc, h1, h2, h3, h4, h5, DispatchAction.phaseOf]
            · rw [Bool.not_eq_true] at h5
              by_cases h6 : (containsStr t "network" || (containsStr t "console" || containsStr t "error")) = true
              · simp [Bool.or_assoc, h1, h2, h3, h4, h5, h6, DispatchAction.phaseOf]
              · rw [Bool.not_eq_true] at h6
                by_cases h7 : (containsStr t "curl" || containsStr t "header") = true
                · simp [Bool.or_assoc, h1, h2, h3, h4, h5, h6, h7, DispatchAction.phaseOf]
                · rw [Bool.not_eq_true] at h7
                  by_cases h8 : (containsStr t "finish" || containsStr t "complete") = true
                  · simp [Bool.or_assoc, h1, h2, h3, h4, h5, h6, h7, h8, DispatchAction.phaseOf]
                  · rw [Bool.not_eq_true] at h8
                    simp [Bool.or_assoc, h1, h2, h3, h4, h5, h6, h7, h8, DispatchAction.phaseOf]
  · intro td hval hok hnone
    obtain ⟨ctx1, hu⟩ := urlDiscovery_ok_exists s.debugContext td.thought hok
    unfold processStep
    rw [hval]
    dsimp only
    rw [hu]
    dsimp only
    repeat' split
    all_goals exact runDispatch_history w _ _

def noKeywordInput : RawInput :=
  { thought := .str "hello", thoughtNumber := .num 1,
    totalThoughts := .num 1, nextThoughtNeeded := .bool true }

/-- C3 witness: the websocket+curl text picks the WebSocket phase, and
a keyword-free valid step is still appended to the ledger. -/
theorem c3_dispatch_first_match_exclusive_witness :
    dispatchAction (lowerStr "Check WebSocket vs curl") = .phase .websocket ∧
    (processStep emptyWorld initialState noKeywordInput).1.thoughtHistory =
      [{ thought := "hello", thoughtNumber := 1, totalThoughts := 1,
         nextThoughtNeeded := true }] := by
  refine ⟨(c3_dispatch_first_match_exclusive emptyWorld initialState
            noKeywordInput).2.1, ?_⟩
  have h := (c3_dispatch_first_match_exclusive emptyWorld initialState
              noKeywordInput).2.2
    { thought := "hello", thoughtNumber := 1, totalThoughts := 1,
      nextThoughtNeeded := true } rfl (by decide) (by decide)
  simpa using h

/-! ## Claim C5 -/

/-- C5: for every valid step with `thoughtNumber > totalThoughts` (whose
URL discovery does not throw), submission stores the step with its
total-steps raised to the step number — the new ledger is exactly the
old ledger (all earlier entries untouched, so no later submission ever
lowers a stored total) plus the corrected entry — and the response
reports that raised total. -/
theorem c5_total_thoughts_monotonic_raise (w : World) (s : ServerState)
    (i : RawInput) (td : ThoughtData)
    (hval : validateThoughtData i = .ok td)
    (hgt : td.thoughtNumber > td.totalThoughts)
    (hok : urlDiscoveryOk s.debugContext td.thought = true) :
    (processStep w s i).1.thoughtHistory =
      s.thoughtHistory ++ [{ td with totalThoughts := td.thoughtNumber }] ∧
    ∃ d rep, (processStep w s i).2 = Response.ok d rep ∧
      d.totalThoughts = td.thoughtNumber := by
  obtain ⟨ctx1, hu⟩ := urlDiscovery_ok_exists s.debugContext td.thought hok
  unfold processStep
  rw [hval]
  dsimp only
  rw [hu]
  dsimp only
  rw [if_pos hgt]
  constructor
  · repeat' split
    all_goals exact runDispatch_history w _ _
  · repeat' split
    all_goals exact ⟨_, _, rfl, rfl⟩

def raisingInput : RawInput :=
  { thought := .str "hello", thoughtNumber := .num 5,
    totalThoughts := .num 3, nextThoughtNeeded := .bool true }

/-- C5 witness: submitting step 5 with total-steps 3 stores the entry
with total-steps 5 and reports total-steps 5. -/
theorem c5_total_thoughts_monotonic_raise_witness :
    (processStep emptyWorld initialState raisingInput).1.thoughtHistory =
      [{ thought := "hello", thoughtNumber := 5, totalThoughts := 5,
         nextThoughtNeeded := true }] ∧
    ∃ d rep,
      (processStep emptyWorld initialState raisingInput).2 =
        Response.ok d rep ∧ d.totalThoughts = 5 := by
  have h := c5_total_thoughts_monotonic_raise emptyWorld initialState
    raisingInput
    { thought := "hello", thoughtNumber := 5, totalThoughts := 3,
      nextThoughtNeeded := true } rfl (by decide) (by decide)
  constructor
  · simpa using h.1
  · simpa using h.2

end OTDebug
